import Mathlib

/-!
Verification development for the drone mission execution engine
(backend/simulation_server.py).  The Python source is shallowly embedded:
floats become rationals, the external libraries (dronekit vehicle link,
turf geometry, math trig/sqrt) become oracle parameters of the
environment records, and the polling loops become fueled recursions whose
fuel exhaustion models nontermination (exit kind `hung`, in which case
Python's `finally` never runs).
-/

/-- A raw boundary waypoint as received in `mission_data` (`{lat, lng}`). -/
structure Waypoint where
  lat : ℚ
  lng : ℚ
deriving DecidableEq, Repr

/-- The `action` field of a generated survey point (always `'photo'`). -/
inductive SPAction
| photo
deriving DecidableEq, Repr

/-- A survey point dict.  Points produced by the generator carry
`altitude` and `action`; raw input waypoints passed through by the
`< 3` branch of `generate_survey_pattern` have neither key, modelled by
`none` (Python `point.get` with a default). -/
structure SurveyPoint where
  lat : ℚ
  lng : ℚ
  altitude : Option ℚ
  action : Option SPAction
deriving DecidableEq, Repr

/-- `MissionState.__init__` fields (simulation_server.py lines 29-42). -/
structure MissionState where
  waypoints : List Waypoint
  altitude : ℚ
  current_waypoint : Nat
  mission_type : String
  flight_speed : ℚ
  photo_interval : ℚ
  photos_taken : Nat
  coverage_area : ℚ
  flight_pattern : String
  start_time : ℚ
  distance_flown : ℚ
  area_covered : ℚ
deriving DecidableEq, Repr

/-- The defaults assigned by `MissionState.__init__`. -/
def MissionState.init : MissionState :=
  { waypoints := []
    altitude := 100
    current_waypoint := 0
    mission_type := "survey"
    flight_speed := 10
    photo_interval := 2
    photos_taken := 0
    coverage_area := 0
    flight_pattern := "grid"
    start_time := 0
    distance_flown := 0
    area_covered := 0 }

/-- Exceptions raised inside `execute_mission`'s try block. -/
inductive ExnMsg
| notArmableTimeout   -- raise Exception("Vehicle not armable after 30s timeout")
| nameErrorMinLon     -- NameError: name 'min_lon' is not defined (turf + enhanced_3d)
deriving DecidableEq, Repr

/-- The fixed `status` message templates of the source, one constructor
per f-string template. -/
inductive StatusMsg
| generatingPattern                  -- "Generating survey pattern..."
| generatedPoints (n : Nat)          -- "Generated {n} survey points"
| preflightChecks                    -- "Pre-flight checks..."
| armingVehicle                      -- "Arming vehicle..."
| takingOff (altMeters : ℚ)          -- "Taking off to {alt}m..."
| cancelledDuringTakeoff             -- "Mission cancelled during takeoff"
| takeoffComplete                    -- "Takeoff complete, starting survey..."
| flyingToPoint (current total : Nat)  -- "Flying to survey point {i+1}/{n}"
| missionCompleteRtl                 -- "Mission complete - returning to launch"
| missionCancelledRtl                -- "Mission cancelled - returning to launch"
| stoppingMission                    -- "Stopping mission..."
| emergencyLanding                   -- "Emergency landing initiated"
| shuttingDown                       -- "Shutting down simulation..."
deriving DecidableEq, Repr

/-- The fixed `error` message templates of the source. -/
inductive ErrorMsg
| needAtLeastThreeWaypoints   -- "Need at least 3 waypoints to generate survey pattern"
| turfUnavailable             -- "Turf library not available, using simple grid pattern"
| vehicleNotConnected         -- "Cannot start mission, vehicle not connected."
| failedGeneratePattern       -- "Failed to generate survey pattern"
| missionError (e : ExnMsg)   -- "Mission error: {e}"
| missionAlreadyInProgress    -- "Mission already in progress"
| failedStartSitl             -- "Failed to start SITL simulator"
| failedConnectDrone          -- "Failed to connect to drone"
| invalidJson                 -- "Invalid JSON message received from backend"
deriving DecidableEq, Repr

/-- The `warning` message templates of the source. -/
inductive WarnMsg
| noActiveMission             -- "No active mission to stop"
deriving DecidableEq, Repr

/-- The `mission_status` sub-object appended to telemetry while a
mission is active (lines 413-418). -/
structure MissionStatusPayload where
  active : Bool
  photos_taken : Nat
  current_waypoint : Nat
  distance_flown : ℚ
deriving DecidableEq, Repr

/-- The `telemetry` event payload (lines 403-410). -/
structure TelemetryData where
  lat : ℚ
  lng : ℚ
  alt : ℚ
  alt_feet : ℚ
  heading : ℚ
  ground_speed : ℚ
  battery : ℚ
  mode : String
  armed : Bool
  gps_fix : Nat
  mission_status : Option MissionStatusPayload
deriving DecidableEq, Repr

/-- Outbound events (`send_message` calls), one constructor per event
`type` with the payload fields the source sends. -/
inductive Event
| status (m : StatusMsg)
| error (m : ErrorMsg)
| warning (m : WarnMsg)
| mission_info (total_waypoints : Nat) (estimated_time : Nat)
    (coverage_pattern : String) (area_m2 : ℚ) (area_acres : ℚ)
| waypoint_progress (current total : Nat) (percentage : ℚ)
| photo_taken (photo_number : Nat) (lat lng alt : ℚ)
| mission_complete (photos_taken waypoints_completed : Nat)
    (distance_flown area_covered mission_duration : ℚ)
| telemetry (d : TelemetryData)
| vehicle_status (connected armed : Bool) (mode : String) (mission_active : Bool)
| simulation_end
deriving DecidableEq, Repr

/-- Classification of mission-terminal events in the sense of the spec:
`mission_complete`, a cancellation status, or a mission-aborting error.
Generator-level errors (`needAtLeastThreeWaypoints`, `turfUnavailable`)
are non-fatal (the run continues past them) and are therefore not
terminal. -/
def isTerminalB : Event → Bool
| .mission_complete _ _ _ _ _ => true
| .status .cancelledDuringTakeoff => true
| .status .missionCancelledRtl => true
| .error (.missionError _) => true
| .error .vehicleNotConnected => true
| .error .failedGeneratePattern => true
| _ => false

/-! ## Survey pattern generator (lines 98-210) -/

/-- `grid_spacing = 0.0001` (approximately 10 meters). -/
def grid_spacing : ℚ := 1 / 10000

/-- Number of iterations of `while cur <= hi: ...; cur += s` started at
`lo` with step `s > 0`; equals `int((hi - lo) / s) + 1` when `lo ≤ hi`
(the count used by the fallback's list comprehensions) and `0` when the
loop body never runs. -/
def gridSteps (lo hi s : ℚ) : Nat :=
  if lo ≤ hi then (⌊(hi - lo) / s⌋).toNat + 1 else 0

/-- The values visited by `while cur <= hi` ascending from `lo` by `s`. -/
def gridAsc (lo hi s : ℚ) : List ℚ :=
  (List.range (gridSteps lo hi s)).map (fun i => lo + (i : ℚ) * s)

/-- The values visited by `while cur >= lo` descending from `hi` by `s`. -/
def gridDesc (lo hi s : ℚ) : List ℚ :=
  (List.range (gridSteps lo hi s)).map (fun i => hi - (i : ℚ) * s)

/-- Minimum latitude of a waypoint list (Python `min(lats)`; only ever
applied to nonempty lists). -/
def wpsMinLat : List Waypoint → ℚ
| [] => 0
| w :: ws => ws.foldl (fun a p => min a p.lat) w.lat

/-- Maximum latitude of a waypoint list. -/
def wpsMaxLat : List Waypoint → ℚ
| [] => 0
| w :: ws => ws.foldl (fun a p => max a p.lat) w.lat

/-- Minimum longitude of a waypoint list. -/
def wpsMinLng : List Waypoint → ℚ
| [] => 0
| w :: ws => ws.foldl (fun a p => min a p.lng) w.lng

/-- Maximum longitude of a waypoint list. -/
def wpsMaxLng : List Waypoint → ℚ
| [] => 0
| w :: ws => ws.foldl (fun a p => max a p.lng) w.lng

/-- A raw waypoint returned unchanged by the `< 3` branch: the dict has
no `altitude` or `action` key. -/
def rawPoint (w : Waypoint) : SurveyPoint :=
  { lat := w.lat, lng := w.lng, altitude := none, action := none }

/-- A generated grid point: `{'lat', 'lng', 'altitude', 'action': 'photo'}`. -/
def gridPoint (lat lng alt : ℚ) : SurveyPoint :=
  { lat := lat, lng := lng, altitude := some alt, action := some .photo }

/-- Environment of the generator: whether `import turf` succeeds and the
oracle for `turf.boolean_point_in_polygon` against the closed input ring
(arguments: lng, lat). -/
structure GenEnv where
  turfAvailable : Bool
  inPoly : ℚ → ℚ → Bool

/-- The turf-branch primary sweep (lines 129-149): boustrophedon rows
over the bounding box, containment-filtered.  Even rows ascend from
`min_lng`, odd rows descend from `max_lng`. -/
def turfRows (env : GenEnv) (minLat maxLat minLng maxLng altitude : ℚ) :
    List SurveyPoint :=
  (List.range (gridSteps minLat maxLat grid_spacing)).flatMap (fun row =>
    let lat := minLat + (row : ℚ) * grid_spacing
    let lons := if row % 2 = 0 then gridAsc minLng maxLng grid_spacing
                else gridDesc minLng maxLng grid_spacing
    (lons.filter (fun lon => env.inPoly lon lat)).map
      (fun lon => gridPoint lat lon altitude))

/-- The fallback primary sweep (lines 182-194): the same list of
longitudes is used for every row (list comprehension from `min_lon`),
reversed on odd rows; no containment filter. -/
def fallbackRows (minLat maxLat minLon maxLon altitude : ℚ) :
    List SurveyPoint :=
  let lons := gridAsc minLon maxLon grid_spacing
  (List.range (gridSteps minLat maxLat grid_spacing)).flatMap (fun row =>
    let lat := minLat + (row : ℚ) * grid_spacing
    let rowLons := if row % 2 = 0 then lons else lons.reverse
    rowLons.map (fun lon => gridPoint lat lon altitude))

/-- The fallback perpendicular sweep added for `enhanced_3d`
(lines 196-208): columns instead of rows, at `altitude + 10`. -/
def fallbackPerp (minLat maxLat minLon maxLon altitude : ℚ) :
    List SurveyPoint :=
  let lats := gridAsc minLat maxLat grid_spacing
  (List.range (gridSteps minLon maxLon grid_spacing)).flatMap (fun col =>
    let lon := minLon + (col : ℚ) * grid_spacing
    let colLats := if col % 2 = 0 then lats else lats.reverse
    colLats.map (fun lat => gridPoint lat lon (altitude + 10)))

/-- `generate_survey_pattern` (lines 110-210).  Returns the events it
sends plus either the produced point list or the exception it raises.
In the turf branch with `enhanced_3d` set, line 153 reads `min_lon`,
which is never assigned in that branch (only the except-ImportError
branch assigns it), so Python raises `NameError` before any
perpendicular point is produced; only `ImportError` is caught inside the
function, so the `NameError` propagates to the caller. -/
def generate_survey_pattern (env : GenEnv) (waypoints : List Waypoint)
    (altitude : ℚ) (enhanced_3d : Bool) :
    List Event × Except ExnMsg (List SurveyPoint) :=
  if waypoints.length < 3 then
    ([.error .needAtLeastThreeWaypoints], .ok (waypoints.map rawPoint))
  else
    let minLat := wpsMinLat waypoints
    let maxLat := wpsMaxLat waypoints
    let minLng := wpsMinLng waypoints
    let maxLng := wpsMaxLng waypoints
    if env.turfAvailable then
      let pts := turfRows env minLat maxLat minLng maxLng altitude
      if enhanced_3d then ([], .error .nameErrorMinLon)
      else ([.status (.generatedPoints pts.length)], .ok pts)
    else
      let base := fallbackRows minLat maxLat minLng maxLng altitude
      let pts := if enhanced_3d then
          base ++ fallbackPerp minLat maxLat minLng maxLng altitude
        else base
      ([.error .turfUnavailable], .ok pts)

/-! ## Mission state machine: `execute_mission` (lines 212-372)

The external vehicle and clocks are oracles.  Boolean vehicle reads are
captured by their first-true (or first-false) index in the corresponding
poll sequence, which is fully general because each polling loop stops at
the first read satisfying its exit condition.  Reads of
`is_mission_active` are numbered; the dispatcher can clear the flag at
most once mid-run, so read `k` returns true iff `k` is below the
cancellation read index. -/

/-- The `data` dict of a `start_mission` command: `waypoints`,
`altitude` (feet, default 100), `enhanced3d` (default false). -/
structure MissionData where
  waypoints : List Waypoint
  altitude_feet : ℚ
  enhanced_3d : Bool
deriving DecidableEq, Repr

/-- `* 0.3048`: feet to meters (line 226). -/
def feetToMeters (x : ℚ) : ℚ := x * (3048 / 10000)

/-- The module-level globals touched by `execute_mission`. -/
structure Globals where
  is_mission_active : Bool
  current_mission : Option MissionState
  mode : String
deriving DecidableEq, Repr

/-- Environment of one `execute_mission` run. -/
structure VehicleEnv where
  connected : Bool                  -- `vehicle` is not None
  now : ℚ                           -- time.time() at mission start
  endTime : ℚ                       -- time.time() at mission_complete
  gen : GenEnv                      -- turf availability / containment oracle
  areaTurf : ℚ                      -- turf.area(polygon) when turf is available
  dist : ℚ × ℚ → ℚ × ℚ → ℚ          -- calculate_distance oracle (float haversine)
  armableAt : Nat                   -- first is_armable poll returning True
  armedAt : Nat                     -- first armed poll returning True (arming wait)
  altAt : Nat                       -- first altitude poll reaching 95% of target
  disarmAt : Nat                    -- first armed poll returning False (RTL wait)
  pos : Nat → ℚ × ℚ                 -- successive location reads (lat, lon)
  cancelAt : Option Nat             -- index of first is_mission_active read seeing False
  fuel : Nat                        -- bound on each unbounded polling loop

/-- The value of the `k`-th read of `is_mission_active` during the run:
true until the dispatcher's (single) clear becomes visible. -/
def flagRead (env : VehicleEnv) (k : Nat) : Bool :=
  match env.cancelAt with
  | none => true
  | some c => decide (k < c)

/-- How an `execute_mission` run ended. -/
inductive ExitKind
| notConnected          -- early return, line 218
| patternFailed         -- `if not survey_points`, lines 234-237
| exnExit (e : ExnMsg)  -- except branch, lines 366-369
| cancelledArming       -- plain return, line 284
| cancelledTakeoff      -- return, lines 292-295
| finishedMission (cancelled : Bool)  -- reached simulation_end, line 364
| hung                  -- a polling loop ran out of fuel (nontermination)
deriving DecidableEq, Repr

/-- Result of one embedded `execute_mission` run: emitted events, exit
kind, final globals, and the successive values written to
`current_mission` (for the exclusive-mutation and counter claims). -/
structure RunResult where
  events : List Event
  exit : ExitKind
  g : Globals
  hist : List MissionState
deriving Repr

/-- Arming wait (lines 280-281): `while not vehicle.armed and
is_mission_active: sleep(0.5)`.  `j` counts armed reads, `k` counts flag
reads; returns the flag-read counter after the loop, `none` on fuel
exhaustion. -/
def armWait (env : VehicleEnv) : Nat → Nat → Nat → Option Nat
| 0, _, _ => none
| f + 1, j, k =>
  if env.armedAt ≤ j then some k
  else if flagRead env k = false then some (k + 1)
  else armWait env f (j + 1) (k + 1)

/-- Takeoff wait (lines 289-290): `while alt < altitude * 0.95 and
is_mission_active: sleep(0.5)`.  `a` counts altitude reads. -/
def takeoffWait (env : VehicleEnv) : Nat → Nat → Nat → Option Nat
| 0, _, _ => none
| f + 1, a, k =>
  if env.altAt ≤ a then some k
  else if flagRead env k = false then some (k + 1)
  else takeoffWait env f (a + 1) (k + 1)

/-- RTL wait (lines 361-362): `while vehicle.armed and
is_mission_active: sleep(1)`.  `r` counts post-RTL armed reads (the
vehicle disarms at read `disarmAt`). -/
def rtlWait (env : VehicleEnv) : Nat → Nat → Nat → Option Nat
| 0, _, _ => none
| f + 1, r, k =>
  if env.disarmAt ≤ r then some k
  else if flagRead env k = false then some (k + 1)
  else rtlWait env f (r + 1) (k + 1)

/-- State threaded through the survey loop: current mission counters,
`previous_position`, flag-read counter `k`, position-read counter `p`,
and the mission snapshots written so far. -/
structure SurveySt where
  m : MissionState
  prev : ℚ × ℚ
  k : Nat
  p : Nat
  hist : List MissionState
deriving Repr

/-- Per-waypoint arrival wait (lines 315-330): `while is_mission_active:`
sample location, compute distance to target, sample location again,
accumulate `distance_flown`, break when within 2 m.  Emits no events.
`none` on fuel exhaustion. -/
def arrivalWait (env : VehicleEnv) (tlat tlng : ℚ) :
    Nat → SurveySt → Option SurveySt
| 0, _ => none
| f + 1, st =>
  if flagRead env st.k = false then some { st with k := st.k + 1 }
  else
    let loc := env.pos st.p
    let d := env.dist loc (tlat, tlng)
    let cur := env.pos (st.p + 1)
    let seg := env.dist st.prev cur
    let m' := { st.m with distance_flown := st.m.distance_flown + seg }
    let st' : SurveySt :=
      { m := m', prev := cur, k := st.k + 1, p := st.p + 2,
        hist := st.hist ++ [m'] }
    if d < 2 then some st'
    else arrivalWait env tlat tlng f st'

/-- The survey loop (lines 300-345), iterating the points with their
1-based indices reported against total `n`.  Returns the state, the
events emitted by the loop, and whether an arrival wait hung. -/
def surveyLoop (env : VehicleEnv) (altitude : ℚ) (n : Nat) :
    List (Nat × SurveyPoint) → SurveySt → SurveySt × List Event × Bool
| [], st => (st, [], false)
| (i, pt) :: rest, st =>
  if flagRead env st.k = false then ({ st with k := st.k + 1 }, [], false)
  else
    let st1 : SurveySt := { st with k := st.k + 1 }
    let evs : List Event :=
      [.status (.flyingToPoint (i + 1) n),
       .waypoint_progress (i + 1) n (((i : ℚ) + 1) / (n : ℚ) * 100)]
    match arrivalWait env pt.lat pt.lng env.fuel st1 with
    | none => (st1, evs, true)
    | some st2 =>
      if flagRead env st2.k = false then ({ st2 with k := st2.k + 1 }, evs, false)
      else
        let st3 : SurveySt := { st2 with k := st2.k + 1 }
        if pt.action = some .photo then
          let m' := { st3.m with photos_taken := st3.m.photos_taken + 1 }
          let st4 : SurveySt := { st3 with m := m', hist := st3.hist ++ [m'] }
          let evP : Event :=
            .photo_taken m'.photos_taken pt.lat pt.lng (pt.altitude.getD altitude)
          let r := surveyLoop env altitude n rest st4
          (r.1, evs ++ [evP] ++ r.2.1, r.2.2)
        else
          let r := surveyLoop env altitude n rest st3
          (r.1, evs ++ r.2.1, r.2.2)

/-- Lines 347-364: report completion or cancellation, set RTL, wait for
disarm, then send `simulation_end`. -/
def missionFinish (env : VehicleEnv) (evPre : List Event) (g : Globals)
    (hist : List MissionState) (n : Nat) (st : SurveySt) : RunResult :=
  let g' : Globals := { g with current_mission := some st.m }
  if flagRead env st.k = true then
    let evs := evPre ++
      [.mission_complete st.m.photos_taken n st.m.distance_flown
         st.m.area_covered (env.endTime - st.m.start_time),
       .status .missionCompleteRtl]
    match rtlWait env env.fuel 0 (st.k + 1) with
    | none => { events := evs, exit := .hung, g := { g' with mode := "RTL" },
                hist := hist ++ st.hist }
    | some _ => { events := evs ++ [.simulation_end],
                  exit := .finishedMission false,
                  g := { g' with mode := "RTL" }, hist := hist ++ st.hist }
  else
    let evs := evPre ++ [.status .missionCancelledRtl]
    match rtlWait env env.fuel 0 (st.k + 1) with
    | none => { events := evs, exit := .hung, g := { g' with mode := "RTL" },
                hist := hist ++ st.hist }
    | some _ => { events := evs ++ [.simulation_end],
                  exit := .finishedMission true,
                  g := { g' with mode := "RTL" }, hist := hist ++ st.hist }

/-- The survey phase (lines 298-364): run the survey loop, then hand
over to `missionFinish`; if an arrival wait never terminated the run is
hung with the events emitted so far. -/
def surveyPhase (env : VehicleEnv) (pre : List Event) (g4 : Globals)
    (hist1 : List MissionState) (altitude : ℚ) (n : Nat)
    (pts : List (Nat × SurveyPoint)) (st0 : SurveySt) : RunResult :=
  let sr := surveyLoop env altitude n pts st0
  let evPre := pre ++ sr.2.1
  if sr.2.2 then
    { events := evPre, exit := .hung,
      g := { g4 with current_mission := some sr.1.m },
      hist := hist1 ++ sr.1.hist }
  else
    missionFinish env evPre g4 (hist1 ++ sr.1.hist) n { sr.1 with hist := [] }

/-- The body of `execute_mission`'s try block (lines 220-364), plus the
except branch (366-369).  The `finally` is applied by `execute_mission`. -/
def execBody (env : VehicleEnv) (md : MissionData) (g0 : Globals) : RunResult :=
  let g1 : Globals := { g0 with is_mission_active := true }
  let m0 := MissionState.init
  let m1 := { m0 with start_time := env.now }
  let altitude := feetToMeters md.altitude_feet
  let m2 := { m1 with waypoints := md.waypoints, altitude := altitude }
  let hist0 := [m0, m1, m2]
  let g2 : Globals := { g1 with current_mission := some m2 }
  let ev0 : List Event := [.status .generatingPattern]
  let gr := generate_survey_pattern env.gen md.waypoints altitude md.enhanced_3d
  let evGen := gr.1
  match gr.2 with
  | .error e =>
    -- NameError propagates to the except branch: error event, RTL.
    { events := ev0 ++ evGen ++ [.error (.missionError e)],
      exit := .exnExit e, g := { g2 with mode := "RTL" }, hist := hist0 }
  | .ok survey_points =>
    if survey_points.isEmpty then
      { events := ev0 ++ evGen ++ [.error .failedGeneratePattern],
        exit := .patternFailed,
        g := { g2 with is_mission_active := false }, hist := hist0 }
    else
      let area : ℚ :=
        if env.gen.turfAvailable then env.areaTurf
        else
          let minLat := wpsMinLat md.waypoints
          let maxLat := wpsMaxLat md.waypoints
          let minLon := wpsMinLng md.waypoints
          let maxLon := wpsMaxLng md.waypoints
          let width := env.dist (minLat, minLon) (minLat, maxLon)
          let height := env.dist (minLat, minLon) (maxLat, minLon)
          width * height
      let m3 := { m2 with area_covered := area }
      let g3 : Globals := { g2 with current_mission := some m3 }
      let hist1 := hist0 ++ [m3]
      let n := survey_points.length
      let evInfo : List Event :=
        [.mission_info n (n * 3)
           (if md.enhanced_3d then "enhanced_3d" else "standard_grid")
           area (area / (404686 / 100)),
         .status .preflightChecks]
      if 30 < env.armableAt then
        { events := ev0 ++ evGen ++ evInfo ++ [.error (.missionError .notArmableTimeout)],
          exit := .exnExit .notArmableTimeout,
          g := { g3 with mode := "RTL" }, hist := hist1 }
      else
        let evArm : List Event := [.status .armingVehicle]
        let g4 : Globals := { g3 with mode := "GUIDED" }
        match armWait env env.fuel 0 0 with
        | none =>
          { events := ev0 ++ evGen ++ evInfo ++ evArm, exit := .hung,
            g := g4, hist := hist1 }
        | some k1 =>
          if flagRead env k1 = false then
            { events := ev0 ++ evGen ++ evInfo ++ evArm,
              exit := .cancelledArming, g := g4, hist := hist1 }
          else
            let evTO : List Event := [.status (.takingOff altitude)]
            match takeoffWait env env.fuel 0 (k1 + 1) with
            | none =>
              { events := ev0 ++ evGen ++ evInfo ++ evArm ++ evTO,
                exit := .hung, g := g4, hist := hist1 }
            | some k2 =>
              if flagRead env k2 = false then
                { events := ev0 ++ evGen ++ evInfo ++ evArm ++ evTO ++
                    [.status .cancelledDuringTakeoff],
                  exit := .cancelledTakeoff,
                  g := { g4 with mode := "RTL" }, hist := hist1 }
              else
                let evTC : List Event := [.status .takeoffComplete]
                let prev := env.pos 0
                let st0 : SurveySt :=
                  { m := m3, prev := prev, k := k2 + 1, p := 1, hist := [] }
                let pts := (List.range n).zip survey_points
                surveyPhase env (ev0 ++ evGen ++ evInfo ++ evArm ++ evTO ++ evTC)
                  g4 hist1 altitude n pts st0

/-- `execute_mission` (lines 213-372): the not-connected early return is
outside the try block; the `finally` (lines 370-372) clears
`is_mission_active` and `current_mission` on every exit of the try block
but cannot run if a polling loop never terminates. -/
def execute_mission (env : VehicleEnv) (md : MissionData) (g0 : Globals) :
    RunResult :=
  if env.connected = false then
    { events := [.error .vehicleNotConnected], exit := .notConnected,
      g := g0, hist := [] }
  else
    let r := execBody env md g0
    match r.exit with
    | .hung => r
    | _ =>
      { r with
        g := { r.g with is_mission_active := false, current_mission := none } }

/-! ## Telemetry publisher: one tick of `stream_telemetry` (lines 381-421)

One iteration of the 10 Hz loop, for a fixed vehicle snapshot.  `math`
functions (`degrees`, `sqrt`) and `calculate_distance` are oracles; the
embedding preserves the Python truthiness tests (`if attitude.yaw`,
`if velocity[0]`, `if vehicle.battery.level`, `if previous_position`). -/

structure TelemEnv where
  connected : Bool                  -- vehicle is not None
  armed : Bool
  loc : ℚ × ℚ × ℚ                   -- location: lat, lon, alt
  yaw : ℚ                           -- attitude.yaw (radians)
  degreesFn : ℚ → ℚ                 -- math.degrees oracle
  velocity : ℚ × ℚ × ℚ              -- [vx, vy, vz]
  sqrtFn : ℚ → ℚ                    -- math.sqrt oracle
  battery : ℚ                       -- vehicle.battery.level
  mode : String
  gpsPresent : Bool                 -- vehicle.gps_0 is not None
  gps_fix : Nat
  dist : ℚ × ℚ → ℚ × ℚ → ℚ          -- calculate_distance oracle

/-- One body iteration of `stream_telemetry`'s while loop: returns the
events emitted this tick, the new `current_mission` value, and the new
`previous_position`. -/
def stream_telemetry_tick (env : TelemEnv) (is_mission_active : Bool)
    (current_mission : Option MissionState) (prev : Option (ℚ × ℚ × ℚ)) :
    List Event × Option MissionState × Option (ℚ × ℚ × ℚ) :=
  if env.connected = true ∧ env.armed = true then
    let location := env.loc
    let heading0 : ℚ := if env.yaw ≠ 0 then env.degreesFn env.yaw else 0
    let heading : ℚ := if heading0 < 0 then heading0 + 360 else heading0
    let vx := env.velocity.1
    let vy := env.velocity.2.1
    let ground_speed : ℚ := if vx ≠ 0 then env.sqrtFn (vx ^ 2 + vy ^ 2) else 0
    let mission' : Option MissionState :=
      match prev with
      | some pp =>
        if is_mission_active = true then
          let d := env.dist (pp.1, pp.2.1) (location.1, location.2.1)
          match current_mission with
          | some m => some { m with distance_flown := m.distance_flown + d }
          | none => none
        else current_mission
      | none => current_mission
    let prev' := some location
    let battery : ℚ := if env.battery ≠ 0 then env.battery else 100
    let mission_status : Option MissionStatusPayload :=
      if is_mission_active = true then
        match mission' with
        | some m =>
          some { active := true, photos_taken := m.photos_taken,
                 current_waypoint := m.current_waypoint,
                 distance_flown := m.distance_flown }
        | none => none
      else none
    let data : TelemetryData :=
      { lat := location.1, lng := location.2.1, alt := location.2.2,
        alt_feet := location.2.2 / (3048 / 10000), heading := heading,
        ground_speed := ground_speed, battery := battery, mode := env.mode,
        armed := true,
        gps_fix := if env.gpsPresent then env.gps_fix else 0,
        mission_status := mission_status }
    ([.telemetry data], mission', prev')
  else ([], current_mission, prev)

/-- The `ground_speed` field of the single telemetry event of a tick
(`none` when the tick emitted nothing or something else). -/
def groundSpeedOf : List Event → Option ℚ
| [.telemetry d] => some d.ground_speed
| _ => none

/-! ## Command dispatcher: `handle_client_messages` (lines 428-492) -/

/-- A decoded inbound line.  `malformed` is a line that fails JSON
decoding; `unknown` has a `command` key the dispatcher does not
recognise (including a missing key, `data.get` returning None). -/
inductive Cmd
| start_mission (md : MissionData)
| stop_mission
| emergency_land
| get_status
| shutdown
| malformed
| unknown
deriving DecidableEq, Repr

/-- Dispatcher-visible state: the vehicle handle and its snapshot, the
shared mission flag, the missions spawned so far (`threading.Thread`
targets), and whether `os._exit` ran. -/
structure DispSt where
  connected : Bool          -- vehicle is not None
  connectWorks : Bool       -- start_sitl + connect_to_drone succeed (external)
  armed : Bool              -- vehicle.armed
  mode : String             -- vehicle.mode
  is_mission_active : Bool
  spawned : List MissionData
  halted : Bool
deriving DecidableEq, Repr

/-- Processing of one command (the body of the for loop, lines 433-492).
Spawning a mission thread only records it; crucially, the dispatcher
does not set `is_mission_active` itself — line 221 inside the spawned
thread does. -/
def dispatchCmd (s : DispSt) : Cmd → DispSt × List Event
| .start_mission md =>
  if s.is_mission_active = true then (s, [.error .missionAlreadyInProgress])
  else if s.connected = false ∧ s.connectWorks = false then
    -- start_sitl / connect_to_drone failure: report and continue
    (s, [.error .failedStartSitl])
  else
    let s1 : DispSt := { s with connected := true }
    ({ s1 with spawned := s1.spawned ++ [md] }, [])
| .stop_mission =>
  if s.is_mission_active = true then
    let s1 : DispSt := { s with is_mission_active := false }
    let s2 : DispSt := if s1.connected then { s1 with mode := "RTL" } else s1
    (s2, [.status .stoppingMission])
  else (s, [.warning .noActiveMission])
| .emergency_land =>
  if s.connected = true ∧ s.armed = true then
    ({ s with mode := "LAND" }, [.status .emergencyLanding])
  else (s, [])
| .get_status =>
  (s, [.vehicle_status s.connected (if s.connected then s.armed else false)
        (if s.connected then s.mode else "Unknown") s.is_mission_active])
| .shutdown => ({ s with halted := true }, [.status .shuttingDown])
| .malformed => (s, [.error .invalidJson])
| .unknown => (s, [])

/-- The stdin intake loop: processes commands in order until the input
is exhausted or `shutdown` calls `os._exit`. -/
def handle_client_messages : List Cmd → DispSt → DispSt × List Event
| [], s => (s, [])
| c :: cs, s =>
  let (s1, ev) := dispatchCmd s c
  if s1.halted = true then (s1, ev)
  else
    let (s2, evs) := handle_client_messages cs s1
    (s2, ev ++ evs)

/-! ## Interleaving model for dispatcher / mission-thread concurrency

`handle_client_messages` runs on the main thread while each
`execute_mission` runs on its own `threading.Thread`.  A spawned thread
has not yet executed line 221 (`is_mission_active = True`); a running
thread has; a finished thread has run the `finally` (line 371,
`is_mission_active = False`).  Thread steps interleave arbitrarily with
dispatcher steps. -/

/-- Lifecycle phase of one spawned `execute_mission` thread, as far as
the shared flag is concerned. -/
inductive TPhase
| spawned    -- Thread.start() done, body not yet scheduled
| running    -- line 221 executed: flag set, mission under way
| done       -- finally executed: flag cleared
deriving DecidableEq, Repr

/-- Whether a thread is currently executing the mission body. -/
def isRunning : TPhase → Bool
| .running => true
| _ => false

/-- Global state of the interleaved system. -/
structure CSys where
  disp : DispSt
  pending : List Cmd
  threads : List TPhase
  events : List Event
deriving DecidableEq, Repr

/-- A scheduler choice: run the dispatcher for one command, or schedule
thread `i` for its next phase transition. -/
inductive CStep
| dispatch
| thread (i : Nat)
deriving DecidableEq, Repr

/-- One interleaving step. -/
def csysStep (sys : CSys) : CStep → CSys
| .dispatch =>
  match sys.pending with
  | [] => sys
  | c :: cs =>
    if sys.disp.halted = true then sys
    else
      let (d', ev) := dispatchCmd sys.disp c
      let newThreads :=
        List.replicate (d'.spawned.length - sys.disp.spawned.length) TPhase.spawned
      { disp := d', pending := cs,
        threads := sys.threads ++ newThreads, events := sys.events ++ ev }
| .thread i =>
  match sys.threads[i]? with
  | some .spawned =>
    -- execute_mission begins: line 221 sets is_mission_active = True
    { sys with
      threads := sys.threads.set i .running,
      disp := { sys.disp with is_mission_active := true } }
  | some .running =>
    -- the body finishes; finally clears the flag
    { sys with
      threads := sys.threads.set i .done,
      disp := { sys.disp with is_mission_active := false } }
  | _ => sys

/-- Run a schedule. -/
def csysRun (sys : CSys) (sched : List CStep) : CSys :=
  sched.foldl csysStep sys

/-! ## Matchers and concrete fixtures used by witnesses and counterexamples -/

/-- Shape matcher for `waypoint_progress` events. -/
def isWaypointProgressB : Event → Bool
| .waypoint_progress _ _ _ => true
| _ => false

/-- A containment oracle that accepts everything, with turf available. -/
def genTrue : GenEnv := { turfAvailable := true, inPoly := fun _ _ => true }

/-- Two boundary vertices: fewer than the 3 the generator requires. -/
def wptsTwo : List Waypoint := [⟨0, 0⟩, ⟨1, 1⟩]

/-- A 3-vertex polygon. -/
def wptsTri : List Waypoint := [⟨0, 0⟩, ⟨0, 1⟩, ⟨1, 1⟩]

/-- A cooperative vehicle: connected, immediately armable/armed/at
altitude/disarmed, always at the target (distance oracle 0), never
cancelled. -/
def envBase : VehicleEnv :=
  { connected := true, now := 0, endTime := 9, gen := genTrue, areaTurf := 50,
    dist := fun _ _ => 0, armableAt := 0, armedAt := 0, altAt := 0,
    disarmAt := 0, pos := fun _ => (0, 0), cancelAt := none, fuel := 20 }

/-- Same vehicle, but the dispatcher clears `is_mission_active` so that
its second read (the check after the takeoff wait, line 292) sees false. -/
def envCancel : VehicleEnv := { envBase with cancelAt := some 1 }

/-- `start_mission` data with two vertices. -/
def mdTwo : MissionData :=
  { waypoints := wptsTwo, altitude_feet := 100, enhanced_3d := false }

/-- `start_mission` data with no vertices. -/
def mdNil : MissionData :=
  { waypoints := [], altitude_feet := 100, enhanced_3d := false }

/-- Globals before any mission: flag clear, no mission, initial mode. -/
def gClean : Globals :=
  { is_mission_active := false, current_mission := none, mode := "STABILIZE" }

/-- Dispatcher state with a connected, disarmed vehicle and no mission. -/
def dIdle : DispSt :=
  { connected := true, connectWorks := true, armed := false,
    mode := "STABILIZE", is_mission_active := false, spawned := [],
    halted := false }

/-- Two back-to-back `start_mission` lines on stdin. -/
def sysTwoStarts : CSys :=
  { disp := dIdle,
    pending := [.start_mission mdNil, .start_mission mdNil],
    threads := [], events := [] }

/-- Telemetry environment: armed vehicle with velocity `[0, 5, 0]`; the
`math.sqrt` oracle records the true square root at the only argument the
claim needs (`0² + 5² = 25`). -/
def tEnvVy : TelemEnv :=
  { connected := true, armed := true, loc := (1, 2, 30), yaw := 0,
    degreesFn := fun q => q * 57, velocity := (0, 5, 0),
    sqrtFn := fun q => if q = 25 then 5 else 0, battery := 90,
    mode := "GUIDED", gpsPresent := true, gps_fix := 3,
    dist := fun _ _ => 7 }

/-! ## Claim theorems -/

/-- C1 (counterexample): two back-to-back `start_mission` commands can
result in two concurrently running `execute_mission` instances.  The
dispatcher spawns both threads before either has executed line 221
(which is what sets `is_mission_active`), so the second `start_mission`
sees the flag still false and spawns a second state machine. -/
theorem C1_back_to_back_two_running :
    (csysRun sysTwoStarts [.dispatch, .dispatch, .thread 0, .thread 1]).threads.countP
      isRunning = 2 := by decide

/-- C1 (amended): issuing `start_mission` while `is_mission_active` is
already true spawns nothing, changes no state, and emits exactly one
`MissionAlreadyActiveError` event; but because the flag is set inside
the spawned thread rather than by the dispatcher, back-to-back starts
can still race (see the counterexample). -/
theorem C1_flag_true_no_spawn (sys : CSys) (md : MissionData) (cs : List Cmd)
    (hflag : sys.disp.is_mission_active = true)
    (hpend : sys.pending = .start_mission md :: cs)
    (hhalt : sys.disp.halted = false) :
    (csysStep sys .dispatch).threads = sys.threads ∧
    (csysStep sys .dispatch).events =
      sys.events ++ [.error .missionAlreadyInProgress] ∧
    (csysStep sys .dispatch).disp = sys.disp ∧
    (csysStep sys .dispatch).pending = cs := by
  unfold csysStep
  rw [hpend]
  simp [hhalt, dispatchCmd, hflag]

/-- C1 (witness for the amended theorem): concrete dispatcher state with
an active mission and one pending `start_mission`. -/
theorem C1_flag_true_no_spawn_witness :
    (csysStep { disp := { dIdle with is_mission_active := true },
                pending := [.start_mission mdNil], threads := [],
                events := [] } .dispatch).threads = [] ∧
    (csysStep { disp := { dIdle with is_mission_active := true },
                pending := [.start_mission mdNil], threads := [],
                events := [] } .dispatch).events =
      [] ++ [.error .missionAlreadyInProgress] ∧
    (csysStep { disp := { dIdle with is_mission_active := true },
                pending := [.start_mission mdNil], threads := [],
                events := [] } .dispatch).disp =
      { dIdle with is_mission_active := true } ∧
    (csysStep { disp := { dIdle with is_mission_active := true },
                pending := [.start_mission mdNil], threads := [],
                events := [] } .dispatch).pending = [] :=
  C1_flag_true_no_spawn _ mdNil [] rfl rfl rfl

/-- C2 (counterexample): a run cancelled during takeoff emits exactly
one terminal event (the cancellation status of line 293) but no
`simulation_end` at all — the claim that the terminal event is followed
by `simulation_end` fails on this run. -/
theorem C2_cancelled_takeoff_no_simulation_end :
    (execute_mission envCancel mdTwo gClean).events.countP isTerminalB = 1 ∧
    (execute_mission envCancel mdTwo gClean).events.getLast? =
      some (.status .cancelledDuringTakeoff) ∧
    Event.simulation_end ∉ (execute_mission envCancel mdTwo gClean).events :=
  ⟨by decide, by decide, by decide⟩

/-- C3: every exit of the mission state machine other than
nontermination leaves `is_mission_active` false and `current_mission`
none: the `finally` block runs on every exit of the try block, and the
not-connected early return never set them. -/
theorem C3_cleanup_invariant (env : VehicleEnv) (md : MissionData)
    (g0 : Globals) (h1 : g0.is_mission_active = false)
    (h2 : g0.current_mission = none)
    (h3 : (execute_mission env md g0).exit ≠ ExitKind.hung) :
    (execute_mission env md g0).g.is_mission_active = false ∧
    (execute_mission env md g0).g.current_mission = none := by
  unfold execute_mission at h3 ⊢
  by_cases hc : env.connected = false
  · simp only [if_pos hc]
    exact ⟨h1, h2⟩
  · simp only [if_neg hc] at h3 ⊢
    rcases hex : (execBody env md g0).exit with _ | _ | e | _ | _ | c | _ <;>
      simp [hex] at h3 ⊢

/-- C3 (witness): a concrete run (pattern failure on an empty waypoint
list) whose exit is not `hung`. -/
theorem C3_cleanup_invariant_witness :
    (execute_mission envBase mdNil gClean).g.is_mission_active = false ∧
    (execute_mission envBase mdNil gClean).g.current_mission = none :=
  C3_cleanup_invariant envBase mdNil gClean rfl rfl (by decide)

/-- C5 (counterexample): with only 2 vertices the generator returns the
input unchanged (a nonempty list), so `if not survey_points` does not
fire and the mission starts and flies the two raw waypoints to
completion, despite the `PatternError` report. -/
theorem C5_two_vertex_mission_flies :
    (execute_mission envBase mdTwo gClean).exit = .finishedMission false ∧
    Event.error .needAtLeastThreeWaypoints ∈
      (execute_mission envBase mdTwo gClean).events ∧
    (execute_mission envBase mdTwo gClean).events.countP isWaypointProgressB = 2 :=
  ⟨by decide, by decide, by decide⟩

/-- C5 (amended): for fewer than 3 vertices the generator reports the
`PatternError` event and returns the input unchanged as the survey
points; the mission then fails to start only when that list is empty. -/
theorem C5_pattern_error_raw_passthrough (genv : GenEnv) (w : List Waypoint)
    (a : ℚ) (e : Bool) (env : VehicleEnv) (md : MissionData) (g0 : Globals)
    (hw : w.length < 3) (hmd : md.waypoints = []) :
    generate_survey_pattern genv w a e =
      ([.error .needAtLeastThreeWaypoints], .ok (w.map rawPoint)) ∧
    (env.connected = true → (execute_mission env md g0).exit = .patternFailed) := by
  constructor
  · unfold generate_survey_pattern
    simp [hw]
  · intro hc
    have hb : (execBody env md g0).exit = .patternFailed := by
      unfold execBody
      simp [hmd, generate_survey_pattern]
    unfold execute_mission
    simp [hc, hb]

/-- C5 (witness for the amended theorem): the empty polygon. -/
theorem C5_pattern_error_raw_passthrough_witness :
    generate_survey_pattern genTrue [] 30 false =
      ([.error .needAtLeastThreeWaypoints], .ok (([] : List Waypoint).map rawPoint)) ∧
    (envBase.connected = true →
      (execute_mission envBase mdNil gClean).exit = .patternFailed) :=
  C5_pattern_error_raw_passthrough genTrue [] 30 false envBase mdNil gClean
    (by decide) rfl

/-- C6 (code bug): in the turf branch, `enhanced3D=true` raises
`NameError` at line 153 (`min_lon` is only ever assigned in the
except-ImportError branch), instead of appending the orthogonal sweep
at `altitude + 10`; the exception aborts the mission. -/
theorem C6_enhanced_turf_name_error :
    generate_survey_pattern genTrue wptsTri 30 true =
      ([], .error .nameErrorMinLon) := rfl

/-- C7: the survey pattern generator is deterministic — identical
inputs (vertex sequence, altitude, enhanced-3D flag) under the same
geometry library yield identical outputs; it consults no randomness or
clock. -/
theorem C7_generator_deterministic (env : GenEnv) (w1 w2 : List Waypoint)
    (a1 a2 : ℚ) (e1 e2 : Bool) (hw : w1 = w2) (ha : a1 = a2) (he : e1 = e2) :
    generate_survey_pattern env w1 a1 e1 = generate_survey_pattern env w2 a2 e2 := by
  subst hw; subst ha; subst he; rfl

/-- C7 (witness): two identical concrete calls. -/
theorem C7_generator_deterministic_witness :
    generate_survey_pattern genTrue wptsTri 30 false =
      generate_survey_pattern genTrue wptsTri 30 false :=
  C7_generator_deterministic genTrue wptsTri wptsTri 30 30 false false
    rfl rfl rfl

/-- C10: an `emergency_land` command with the vehicle not connected or
not armed mutates nothing and emits no event, and the dispatcher goes on
to process the remaining commands unchanged. -/
theorem C10_emergency_land_silent_noop (s : DispSt) (cs : List Cmd)
    (h : ¬ (s.connected = true ∧ s.armed = true)) (hh : s.halted = false) :
    dispatchCmd s .emergency_land = (s, []) ∧
    handle_client_messages (.emergency_land :: cs) s =
      handle_client_messages cs s := by
  have h1 : dispatchCmd s .emergency_land = (s, []) := by
    unfold dispatchCmd
    simp [h]
  refine ⟨h1, ?_⟩
  conv_lhs => simp only [handle_client_messages]
  rw [h1]
  simp [hh]

/-- C10 (witness): disarmed vehicle, one `emergency_land` then one
`get_status`. -/
theorem C10_emergency_land_silent_noop_witness :
    dispatchCmd dIdle .emergency_land = (dIdle, []) ∧
    handle_client_messages [.emergency_land, .get_status] dIdle =
      handle_client_messages [.get_status] dIdle :=
  C10_emergency_land_silent_noop dIdle [.get_status] (by decide) rfl

/-- C4 (counterexample): one telemetry tick with an armed vehicle, an
active mission and a previous position mutates `MissionState` — line 400
adds the sampled position delta to `current_mission.distance_flown`, so
the publisher is not a pure reader. -/
theorem C4_telemetry_writes_distance_flown :
    (stream_telemetry_tick tEnvVy true (some MissionState.init)
      (some (0, 0, 0))).2.1 ≠ some MissionState.init := by
  norm_num [stream_telemetry_tick, tEnvVy, MissionState.init]

/-- C4 (amended): the telemetry publisher writes exactly one
`MissionState` field — it may add a position delta to `distance_flown`
(line 400); every other field (`photos_taken`, `current_waypoint`,
`waypoints`, ...) is preserved by every tick. -/
theorem C4_telemetry_mutates_only_distance_flown (env : TelemEnv)
    (flag : Bool) (mission : Option MissionState)
    (prev : Option (ℚ × ℚ × ℚ)) :
    (stream_telemetry_tick env flag mission prev).2.1 = mission ∨
    ∃ d, (stream_telemetry_tick env flag mission prev).2.1 =
      mission.map (fun m => { m with distance_flown := m.distance_flown + d }) := by
  unfold stream_telemetry_tick
  by_cases hca : env.connected = true ∧ env.armed = true
  · simp only [if_pos hca]
    cases prev with
    | none => left; rfl
    | some pp =>
      by_cases hf : flag = true
      · cases mission with
        | none => left; simp [hf]
        | some m =>
          right
          exact ⟨env.dist (pp.1, pp.2.1) (env.loc.1, env.loc.2.1), by simp [hf]⟩
      · left; simp [hf]
  · simp [if_neg hca]

/-- C8 (counterexample): with velocity `[0, 5, 0]` the emitted
`ground_speed` is `0`, not the planar magnitude `sqrt(0² + 5²) = 5`:
line 391 guards the whole computation behind the truthiness of
`velocity[0]`. -/
theorem C8_zero_vx_ground_speed_zero :
    groundSpeedOf (stream_telemetry_tick tEnvVy false none none).1 = some 0 ∧
    tEnvVy.sqrtFn (tEnvVy.velocity.1 ^ 2 + tEnvVy.velocity.2.1 ^ 2) = 5 ∧
    (0 : ℚ) ≠ 5 :=
  ⟨by decide, by norm_num [tEnvVy], by norm_num⟩

/-- C8 (amended): for every tick with a connected, armed vehicle, the
emitted `ground_speed` equals `sqrt(vx² + vy²)` whenever `vx ≠ 0`, and
equals `0` when `vx = 0` (even if `vy ≠ 0`). -/
theorem C8_ground_speed_planar_unless_vx_zero (env : TelemEnv) (flag : Bool)
    (mission : Option MissionState) (prev : Option (ℚ × ℚ × ℚ))
    (h1 : env.connected = true) (h2 : env.armed = true) :
    groundSpeedOf (stream_telemetry_tick env flag mission prev).1 =
      some (if env.velocity.1 = 0 then 0
            else env.sqrtFn (env.velocity.1 ^ 2 + env.velocity.2.1 ^ 2)) := by
  unfold stream_telemetry_tick
  simp only [if_pos (And.intro h1 h2)]
  by_cases hv : env.velocity.1 = 0
  · simp [groundSpeedOf, hv]
  · simp [groundSpeedOf, hv]

/-- C8 (witness for the amended theorem): the armed snapshot with
velocity `[0, 5, 0]`. -/
theorem C8_ground_speed_planar_unless_vx_zero_witness :
    groundSpeedOf (stream_telemetry_tick tEnvVy false none none).1 =
      some (if tEnvVy.velocity.1 = 0 then 0
            else tEnvVy.sqrtFn (tEnvVy.velocity.1 ^ 2 + tEnvVy.velocity.2.1 ^ 2)) :=
  C8_ground_speed_planar_unless_vx_zero tEnvVy false none none rfl rfl

/-! ## Helper lemmas for the event-stream and counter invariants -/

/-- The generator's own events are never mission-terminal. -/
theorem countP_terminal_gen (genv : GenEnv) (w : List Waypoint) (a : ℚ)
    (e : Bool) :
    ((generate_survey_pattern genv w a e).1).countP isTerminalB = 0 := by
  unfold generate_survey_pattern
  split
  · simp [isTerminalB]
  · split
    · split
      · simp
      · simp [isTerminalB]
    · simp [isTerminalB]

/-- The survey loop emits only flying statuses, progress reports and
photo events — none of them terminal. -/
theorem surveyLoop_events_nonterminal (env : VehicleEnv) (alt : ℚ) (n : Nat) :
    ∀ (pts : List (Nat × SurveyPoint)) (st : SurveySt) (e : Event),
      e ∈ (surveyLoop env alt n pts st).2.1 → isTerminalB e = false := by
  intro pts
  induction pts with
  | nil => intro st e he; simp [surveyLoop] at he
  | cons hd rest ih =>
    intro st e he
    obtain ⟨i, pt⟩ := hd
    unfold surveyLoop at he
    by_cases hf : flagRead env st.k = false
    · simp [hf] at he
    · rcases ha : arrivalWait env pt.lat pt.lng env.fuel { st with k := st.k + 1 }
        with _ | st2
      · simp only [ha] at he
        simp [hf] at he
        rcases he with rfl | rfl <;> rfl
      · simp only [ha] at he
        by_cases hf2 : flagRead env st2.k = false
        · simp [hf, hf2] at he
          rcases he with rfl | rfl <;> rfl
        · by_cases hact : pt.action = some SPAction.photo
          · simp [hf, hf2, hact] at he
            rcases he with rfl | rfl | rfl | hrec
            · rfl
            · rfl
            · rfl
            · exact ih _ _ hrec
          · simp [hf, hf2, hact] at he
            rcases he with rfl | rfl | hrec
            · rfl
            · rfl
            · exact ih _ _ hrec

/-- If the post-survey phase reports a finished mission, its event list
is the prefix plus exactly one terminal event and a final
`simulation_end`. -/
theorem missionFinish_finished (env : VehicleEnv) (evPre : List Event)
    (g : Globals) (hist : List MissionState) (n : Nat) (st : SurveySt)
    (c : Bool) (hev : evPre.countP isTerminalB = 0)
    (h : (missionFinish env evPre g hist n st).exit = .finishedMission c) :
    (missionFinish env evPre g hist n st).events.countP isTerminalB = 1 ∧
    (missionFinish env evPre g hist n st).events.getLast? =
      some .simulation_end := by
  unfold missionFinish at h ⊢
  by_cases hf : flagRead env st.k = true
  · simp only [hf, if_true] at h ⊢
    rcases hr : rtlWait env env.fuel 0 (st.k + 1) with _ | k
    · simp [hr] at h
    · simp only [hr] at h ⊢
      constructor
      · simp [List.countP_append, List.countP_cons, hev, isTerminalB]
      · simp [List.getLast?_concat]
  · simp only [hf, if_false] at h ⊢
    rcases hr : rtlWait env env.fuel 0 (st.k + 1) with _ | k
    · simp [hr] at h
    · simp only [hr] at h ⊢
      constructor
      · simp [List.countP_append, List.countP_cons, hev, isTerminalB]
      · simp [List.getLast?_concat]

/-- A finished survey phase emits exactly one terminal event after a
terminal-free prefix, and ends with `simulation_end`. -/
theorem surveyPhase_finished (env : VehicleEnv) (pre : List Event)
    (g4 : Globals) (hist1 : List MissionState) (altitude : ℚ) (n : Nat)
    (pts : List (Nat × SurveyPoint)) (st0 : SurveySt) (c : Bool)
    (hev : pre.countP isTerminalB = 0)
    (h : (surveyPhase env pre g4 hist1 altitude n pts st0).exit =
      .finishedMission c) :
    (surveyPhase env pre g4 hist1 altitude n pts st0).events.countP
      isTerminalB = 1 ∧
    (surveyPhase env pre g4 hist1 altitude n pts st0).events.getLast? =
      some .simulation_end := by
  unfold surveyPhase at h ⊢
  rcases hsr : surveyLoop env altitude n pts st0 with ⟨stS, evS, hungS⟩
  simp only [hsr] at h ⊢
  have hevS : evS.countP isTerminalB = 0 := by
    refine List.countP_eq_zero.mpr ?_
    intro a haX
    have hmem : a ∈ (surveyLoop env altitude n pts st0).2.1 := by
      rw [hsr]; exact haX
    simp [surveyLoop_events_nonterminal env altitude n pts st0 a hmem]
  by_cases hh : hungS = true
  · simp [hh] at h
  · simp only [hh, if_false, Bool.false_eq_true] at h ⊢
    have hev2 : (pre ++ evS).countP isTerminalB = 0 := by
      simp [List.countP_append, hev, hevS]
    exact missionFinish_finished env (pre ++ evS) g4 (hist1 ++ stS.hist) n
      { stS with hist := [] } c hev2 h

/-- Finished runs of the try-block body emit exactly one terminal event
and end with `simulation_end`. -/
theorem execBody_finished (env : VehicleEnv) (md : MissionData) (g0 : Globals)
    (c : Bool) (h : (execBody env md g0).exit = .finishedMission c) :
    (execBody env md g0).events.countP isTerminalB = 1 ∧
    (execBody env md g0).events.getLast? = some .simulation_end := by
  unfold execBody at h ⊢
  rcases hg : generate_survey_pattern env.gen md.waypoints
      (feetToMeters md.altitude_feet) md.enhanced_3d with ⟨evGen, res⟩
  simp only [hg] at h ⊢
  have hgen : evGen.countP isTerminalB = 0 := by
    have hx := countP_terminal_gen env.gen md.waypoints
      (feetToMeters md.altitude_feet) md.enhanced_3d
    rw [hg] at hx
    exact hx
  rcases res with e | sp
  · simp at h
  · by_cases hemp : sp.isEmpty = true
    · simp [hemp] at h
    · simp only [hemp, if_false, Bool.false_eq_true] at h ⊢
      by_cases harm : 30 < env.armableAt
      · simp [harm] at h
      · simp only [harm, if_false] at h ⊢
        rcases haw : armWait env env.fuel 0 0 with _ | k1
        · simp [haw] at h
        · simp only [haw] at h ⊢
          by_cases hf1 : flagRead env k1 = false
          · simp [hf1] at h
          · simp only [hf1, if_false] at h ⊢
            rcases htw : takeoffWait env env.fuel 0 (k1 + 1) with _ | k2
            · simp [htw] at h
            · simp only [htw] at h ⊢
              by_cases hf2 : flagRead env k2 = false
              · simp [hf2] at h
              · simp only [hf2, if_false] at h ⊢
                exact surveyPhase_finished _ _ _ _ _ _ _ _ c
                  (by simp [List.countP_append, List.countP_cons, hgen,
                        isTerminalB]) h

/-- C2 (amended): every mission run that reaches the post-survey
return-to-launch phase (success, or cancellation observed at the survey
loop) emits exactly one terminal event, and the run's last event is
`simulation_end`.  Runs exiting earlier (cancellation during arming or
takeoff, pattern failure, or an exception) do not end with
`simulation_end` — see the counterexample. -/
theorem C2_finished_terminal_then_end (env : VehicleEnv) (md : MissionData)
    (g0 : Globals) (c : Bool)
    (h : (execute_mission env md g0).exit = .finishedMission c) :
    (execute_mission env md g0).events.countP isTerminalB = 1 ∧
    (execute_mission env md g0).events.getLast? = some .simulation_end := by
  unfold execute_mission at h ⊢
  by_cases hc : env.connected = false
  · simp [hc] at h
  · simp only [hc, if_false, Bool.true_eq_false, Bool.false_eq_true] at h ⊢
    rcases hex : (execBody env md g0).exit with _ | _ | e | _ | _ | c' | _
    · simp only [hex] at h; simp at h
    · simp only [hex] at h; simp at h
    · simp only [hex] at h; simp at h
    · simp only [hex] at h; simp at h
    · simp only [hex] at h; simp at h
    · simp only [hex] at h ⊢
      have hc2 : c' = c := by simpa using h
      subst hc2
      simpa using execBody_finished env md g0 c' hex
    · simp only [hex] at h; simp at h

/-- C2 (witness for the amended theorem): a completed 2-waypoint run. -/
theorem C2_finished_terminal_then_end_witness :
    (execute_mission envBase mdTwo gClean).events.countP isTerminalB = 1 ∧
    (execute_mission envBase mdTwo gClean).events.getLast? =
      some .simulation_end :=
  C2_finished_terminal_then_end envBase mdTwo gClean false (by decide)

/-- The arrival wait only touches `distance_flown`: it preserves a zero
`current_waypoint` in both the running state and every recorded
snapshot. -/
theorem arrivalWait_cw (env : VehicleEnv) (tlat tlng : ℚ) :
    ∀ (fuel : Nat) (st st' : SurveySt),
      arrivalWait env tlat tlng fuel st = some st' →
      st.m.current_waypoint = 0 →
      (∀ mm ∈ st.hist, mm.current_waypoint = 0) →
      st'.m.current_waypoint = 0 ∧
      ∀ mm ∈ st'.hist, mm.current_waypoint = 0 := by
  intro fuel
  induction fuel with
  | zero => intro st st' hw; simp [arrivalWait] at hw
  | succ f ih =>
    intro st st' hw hm hh
    unfold arrivalWait at hw
    by_cases hf : flagRead env st.k = false
    · simp [hf] at hw
      subst hw
      exact ⟨hm, hh⟩
    · simp only [hf, if_false, Bool.false_eq_true] at hw
      by_cases hd : env.dist (env.pos st.p) (tlat, tlng) < 2
      · simp [hd] at hw
        subst hw
        refine ⟨hm, ?_⟩
        intro mm hmm
        simp only [List.mem_append, List.mem_singleton] at hmm
        rcases hmm with hmm | rfl
        · exact hh mm hmm
        · exact hm
      · simp only [hd, if_false] at hw
        refine ih _ st' hw hm ?_
        intro mm hmm
        simp only [List.mem_append, List.mem_singleton] at hmm
        rcases hmm with hmm | rfl
        · exact hh mm hmm
        · exact hm

/-- The survey loop mutates only `photos_taken` and (via the arrival
wait) `distance_flown`: a zero `current_waypoint` is preserved in the
final state and all recorded snapshots. -/
theorem surveyLoop_cw (env : VehicleEnv) (alt : ℚ) (n : Nat) :
    ∀ (pts : List (Nat × SurveyPoint)) (st : SurveySt),
      st.m.current_waypoint = 0 →
      (∀ mm ∈ st.hist, mm.current_waypoint = 0) →
      (surveyLoop env alt n pts st).1.m.current_waypoint = 0 ∧
      ∀ mm ∈ (surveyLoop env alt n pts st).1.hist, mm.current_waypoint = 0 := by
  intro pts
  induction pts with
  | nil => intro st hm hh; simpa [surveyLoop] using ⟨hm, hh⟩
  | cons hd rest ih =>
    intro st hm hh
    obtain ⟨i, pt⟩ := hd
    unfold surveyLoop
    by_cases hf : flagRead env st.k = false
    · simp only [hf, if_true]
      exact ⟨hm, hh⟩
    · simp only [hf, if_false, Bool.false_eq_true]
      rcases ha : arrivalWait env pt.lat pt.lng env.fuel { st with k := st.k + 1 }
        with _ | st2
      · simp only [ha]
        exact ⟨hm, hh⟩
      · simp only [ha]
        have h2 := arrivalWait_cw env pt.lat pt.lng env.fuel
          { st with k := st.k + 1 } st2 ha hm hh
        by_cases hf2 : flagRead env st2.k = false
        · simp only [hf2, if_true]
          exact h2
        · simp only [hf2, if_false, Bool.false_eq_true]
          by_cases hact : pt.action = some SPAction.photo
          · simp only [hact, if_true]
            refine ih _ h2.1 ?_
            intro mm hmm
            simp only [List.mem_append, List.mem_singleton] at hmm
            rcases hmm with hmm | rfl
            · exact h2.2 mm hmm
            · exact h2.1
          · simp only [hact, if_false]
            exact ih _ h2.1 h2.2

/-- The finish phase only appends the survey snapshots to the history it
is handed. -/
theorem missionFinish_hist (env : VehicleEnv) (evPre : List Event)
    (g : Globals) (hist : List MissionState) (n : Nat) (st : SurveySt) :
    (missionFinish env evPre g hist n st).hist = hist ++ st.hist := by
  unfold missionFinish
  by_cases hf : flagRead env st.k = true
  · simp only [hf, if_true]
    rcases hr : rtlWait env env.fuel 0 (st.k + 1) with _ | k <;> simp [hr]
  · simp only [hf, if_false]
    rcases hr : rtlWait env env.fuel 0 (st.k + 1) with _ | k <;> simp [hr]

/-- The survey phase records exactly the survey loop's snapshots after
the pre-existing history. -/
theorem surveyPhase_hist (env : VehicleEnv) (pre : List Event) (g4 : Globals)
    (hist1 : List MissionState) (alt : ℚ) (n : Nat)
    (pts : List (Nat × SurveyPoint)) (st0 : SurveySt) :
    (surveyPhase env pre g4 hist1 alt n pts st0).hist =
      hist1 ++ (surveyLoop env alt n pts st0).1.hist := by
  unfold surveyPhase
  rcases hsr : surveyLoop env alt n pts st0 with ⟨stS, evS, hungS⟩
  simp only [hsr]
  by_cases hh : hungS = true
  · simp [hh]
  · simp only [hh, if_false, Bool.false_eq_true]
    rw [missionFinish_hist]
    simp

/-- Every `MissionState` snapshot recorded by a run of the try-block
body has `current_waypoint = 0`. -/
theorem execBody_hist_cw (env : VehicleEnv) (md : MissionData) (g0 : Globals) :
    ∀ mm ∈ (execBody env md g0).hist, mm.current_waypoint = 0 := by
  unfold execBody
  rcases hg : generate_survey_pattern env.gen md.waypoints
      (feetToMeters md.altitude_feet) md.enhanced_3d with ⟨evGen, res⟩
  simp only [hg]
  rcases res with e | sp
  · intro mm hmm
    simp at hmm
    rcases hmm with rfl | rfl | rfl <;> rfl
  · by_cases hemp : sp.isEmpty = true
    · simp only [hemp, if_true]
      intro mm hmm
      simp at hmm
      rcases hmm with rfl | rfl | rfl <;> rfl
    · simp only [hemp, if_false, Bool.false_eq_true, Bool.true_eq_false]
      by_cases harm : 30 < env.armableAt
      · simp only [harm, if_true]
        intro mm hmm
        simp at hmm
        rcases hmm with rfl | rfl | rfl | rfl <;> rfl
      · simp only [harm, if_false]
        rcases haw : armWait env env.fuel 0 0 with _ | k1
        · intro mm hmm
          simp at hmm
          rcases hmm with rfl | rfl | rfl | rfl <;> rfl
        · simp only [haw]
          by_cases hf1 : flagRead env k1 = false
          · simp only [hf1, if_true]
            intro mm hmm
            simp at hmm
            rcases hmm with rfl | rfl | rfl | rfl <;> rfl
          · simp only [hf1, if_false, Bool.false_eq_true, Bool.true_eq_false]
            rcases htw : takeoffWait env env.fuel 0 (k1 + 1) with _ | k2
            · intro mm hmm
              simp at hmm
              rcases hmm with rfl | rfl | rfl | rfl <;> rfl
            · simp only [htw]
              by_cases hf2 : flagRead env k2 = false
              · simp only [hf2, if_true]
                intro mm hmm
                simp at hmm
                rcases hmm with rfl | rfl | rfl | rfl <;> rfl
              · simp only [hf2, if_false, Bool.false_eq_true, Bool.true_eq_false]
                rw [surveyPhase_hist]
                intro mm hmm
                simp only [List.mem_append] at hmm
                rcases hmm with hmm | hmm
                · simp at hmm
                  rcases hmm with (rfl | rfl | rfl) | rfl <;> rfl
                · refine (surveyLoop_cw env (feetToMeters md.altitude_feet)
                    sp.length ((List.range sp.length).zip sp) _ rfl ?_).2 mm hmm
                  intro m2 hm2
                  simp at hm2

/-- C9: `MissionState.current_waypoint` stays 0 for a mission's whole
lifetime — no code path ever writes it (the state machine only updates
`photos_taken` and `distance_flown`), and consequently every telemetry
`mission_status` sub-object reports the mission's (never-changing)
`current_waypoint` value, which is 0 from construction. -/
theorem C9_current_waypoint_never_written :
    (∀ (env : VehicleEnv) (md : MissionData) (g0 : Globals) (m : MissionState),
      m ∈ (execute_mission env md g0).hist → m.current_waypoint = 0) ∧
    (∀ (tenv : TelemEnv) (flag : Bool) (mission : Option MissionState)
        (prev : Option (ℚ × ℚ × ℚ)) (m : MissionState),
      mission = some m →
      ∀ d, (stream_telemetry_tick tenv flag mission prev).1 = [.telemetry d] →
      ∀ ms, d.mission_status = some ms →
        ms.current_waypoint = m.current_waypoint) := by
  constructor
  · intro env md g0 m hm
    unfold execute_mission at hm
    by_cases hc : env.connected = false
    · simp [hc] at hm
    · simp only [hc, if_false, Bool.true_eq_false, Bool.false_eq_true] at hm
      rcases hex : (execBody env md g0).exit with _ | _ | e | _ | _ | c' | _ <;>
        simp only [hex] at hm <;>
        exact execBody_hist_cw env md g0 m hm
  · intro tenv flag mission prev m hmiss d hev ms hms
    subst hmiss
    unfold stream_telemetry_tick at hev
    by_cases hca : tenv.connected = true ∧ tenv.armed = true
    · simp only [hca, if_true] at hev
      simp at hev
      subst hev
      by_cases hflag : flag = true
      · simp only [hflag, if_true] at hms
        cases prev with
        | none =>
          simp [hflag] at hms
          rw [← hms]
        | some pp =>
          simp [hflag] at hms
          rw [← hms]
      · simp [hflag] at hms
    · simp [hca] at hev

/-- C9 (witness): a concrete run whose history contains the freshly
constructed `MissionState`, whose `current_waypoint` the theorem then
evaluates to 0. -/
theorem C9_current_waypoint_never_written_witness :
    MissionState.init ∈ (execute_mission envBase mdNil gClean).hist ∧
    MissionState.init.current_waypoint = 0 :=
  ⟨by decide, C9_current_waypoint_never_written.1 envBase mdNil gClean
      MissionState.init (by decide)⟩
